import Mathlib

/-!
Shallow embedding of the AB_CodeReviewer quality-gate orchestration core:
the command executor (ab_reviewer/utils/subprocess_utils.py), the quality
gate manager and summary (ab_reviewer/core/quality_gate.py), the gate
registry (ab_reviewer/core/config_loader.py) and the AI review invoker and
context synthesizer (ab_reviewer/ai/gemini_client.py).

The operating system is modelled by an explicit environment `Env`: a
search-path resolver (shutil.which) and a process launcher returning the
observable outcome of spawning a command (exit code plus captured streams,
a wall-clock overrun, a missing binary at spawn time, or another spawn
error).  Every embedded operation that can spawn processes additionally
returns the list of command vectors it actually spawned, so that claims
about a command never being executed are statable.  Python exceptions are
modelled with `Except`; an uncaught propagating exception is `Except.error`.
-/

namespace ABReviewer

/-- GateStatus enum from ab_reviewer/core/gate_types.py. -/
inductive GateStatus
  | pending
  | running
  | success
  | failed
  | skipped
  | timeout
  deriving DecidableEq

/-- The .value strings of the GateStatus enum members. -/
def statusValue : GateStatus → String
  | .pending => "pending"
  | .running => "running"
  | .success => "success"
  | .failed => "failed"
  | .skipped => "skipped"
  | .timeout => "timeout"

/-- Exceptions raised by run_command in ab_reviewer/utils/subprocess_utils.py.
ToolNotFoundError and ToolExecutionError are sibling subclasses of
ABReviewerError (ab_reviewer/utils/exceptions.py); ValueError is the builtin. -/
inductive RunError
  | valueError (msg : String)
  | toolNotFound (msg : String)
  | toolExecutionError (msg : String)
  deriving DecidableEq

/-- Observable outcome of spawning one external process via subprocess.run:
it completed with an exit code and captured streams, it overran the
wall-clock budget (subprocess.TimeoutExpired), the binary was missing at
spawn time (FileNotFoundError), or some other spawn-time error occurred. -/
inductive ProcOutcome
  | completed (returncode : Int) (stdout stderr : String)
  | timedOut
  | fileNotFound
  | otherError
  deriving DecidableEq

/-- The operating-system environment: shutil.which resolution and process
spawning.  exec takes the command vector, the working directory and the
timeout in seconds. -/
structure Env where
  which : String → Option String
  exec : List String → Option String → Nat → ProcOutcome

/-- Python substring membership (the in operator on str), on char lists. -/
def substrAux (pat : List Char) : List Char → Bool
  | [] => pat.isEmpty
  | c :: rest => pat.isPrefixOf (c :: rest) || substrAux pat rest

/-- Python substring membership: strContains s pat is (pat in s). -/
def strContains (s pat : String) : Bool :=
  substrAux pat.data s.data

/-- run_command from ab_reviewer/utils/subprocess_utils.py.  Returns the
Python result ((success, combined_output) or a raised exception) paired
with the list of command vectors spawned.  Empty cmd raises ValueError;
an unresolvable first token raises ToolNotFoundError before any spawn;
a completed process yields (returncode == 0, stdout ++ stderr) when
capture_output is set; a wall-clock overrun raises ToolExecutionError with
a message starting with the word Command timeout; a spawn-time
FileNotFoundError raises ToolNotFoundError; any other spawn error raises
ToolExecutionError. -/
def run_command (env : Env) (cmd : List String) (cwd : Option String)
    (timeout : Nat) (capture_output : Bool) :
    Except RunError (Bool × String) × List (List String) :=
  match cmd with
  | [] => (.error (.valueError "cmd must be a non-empty list"), [])
  | c0 :: _ =>
    match env.which c0 with
    | none => (.error (.toolNotFound ("Tool not found: " ++ c0)), [])
    | some _ =>
      match env.exec cmd cwd timeout with
      | .completed returncode stdout stderr =>
        let output := if capture_output then stdout ++ stderr else ""
        (.ok (returncode == 0, output), [cmd])
      | .timedOut =>
        (.error (.toolExecutionError
          ("Command timeout after " ++ toString timeout ++ "s: "
            ++ String.intercalate " " cmd)), [cmd])
      | .fileNotFound =>
        (.error (.toolNotFound ("Command not found: " ++ c0)), [cmd])
      | .otherError =>
        (.error (.toolExecutionError
          ("Unexpected error running command: "
            ++ String.intercalate " " cmd)), [cmd])

/-- check_tool_available from ab_reviewer/utils/subprocess_utils.py: false
when shutil.which fails, else spawn tool_name --version and report exit
code zero; TimeoutExpired and FileNotFoundError give false; any other
exception from subprocess.run is not caught and propagates (.error). -/
def check_tool_available (env : Env) (tool_name : String) (timeout : Nat) :
    Except Unit Bool × List (List String) :=
  match env.which tool_name with
  | none => (.ok false, [])
  | some _ =>
    match env.exec [tool_name, "--version"] none timeout with
    | .completed returncode _ _ => (.ok (returncode == 0), [[tool_name, "--version"]])
    | .timedOut => (.ok false, [[tool_name, "--version"]])
    | .fileNotFound => (.ok false, [[tool_name, "--version"]])
    | .otherError => (.error (), [[tool_name, "--version"]])

/-- QualityGateConfig from ab_reviewer/core/gate_types.py.  The success
criteria callable may itself raise, so it is modelled as returning
Except Unit Bool. -/
structure QualityGateConfig where
  name : String
  command : List String
  timeout : Nat
  required : Bool
  auto_install : Bool
  install_command : Option (List String)
  check_available : Bool
  success_criteria : Option (String → Except Unit Bool)

/-- QualityGateResult from ab_reviewer/core/gate_types.py.  Wall-clock
duration is not modelled.  metadata_command is the command entry of the
metadata dict (the only metadata the manager ever writes). -/
structure QualityGateResult where
  tool_name : String
  status : GateStatus
  output : String
  error : String
  metadata_command : Option (List String)
  deriving DecidableEq

/-- QualityGateManager.check_tool_availability: true without any check when
check_available is off; otherwise check the first command token.  Reading
command[0] of an empty command raises IndexError, which propagates. -/
def check_tool_availability (env : Env) (cfg : QualityGateConfig) :
    Except Unit Bool × List (List String) :=
  if cfg.check_available = false then (.ok true, [])
  else
    match cfg.command with
    | [] => (.error (), [])
    | tool_name :: _ => check_tool_available env tool_name 5

/-- QualityGateManager.install_tool.  Returns False when auto_install is
off or install_command is missing or empty.  Otherwise the source calls
run_command(install_command, cwd=..., timeout=300, tool_name=...), but
run_command has no tool_name parameter, so the call raises TypeError
before any process is spawned; the surrounding except clause turns every
exception into False.  Hence no command is ever spawned here and the
result is always False. -/
def install_tool (_env : Env) (_project_path : String) (cfg : QualityGateConfig) :
    Bool × List (List String) :=
  match cfg.auto_install, cfg.install_command with
  | false, _ => (false, [])
  | true, none => (false, [])
  | true, some ic =>
    if ic.isEmpty then (false, [])
    else (false, [])

/-- The try block of QualityGateManager.run_single_gate: execute the gate
command, decide success via the criteria callable (falling back to raw
exit-code success when the callable raises), and classify raised
executor exceptions: a ToolExecutionError whose lowercased message
contains the text timed out becomes TIMEOUT, any other
ToolExecutionError becomes FAILED, and any other exception becomes
FAILED with an Unexpected error message. -/
def execute_gate (env : Env) (project_path : String) (gate_name : String)
    (cfg : QualityGateConfig) : QualityGateResult × List (List String) :=
  let rc := run_command env cfg.command (some project_path) cfg.timeout true
  match rc.1 with
  | .ok (success, output) =>
    let is_success :=
      match cfg.success_criteria with
      | some crit =>
        match crit output with
        | .ok b => b
        | .error _ => success
      | none => success
    ({ tool_name := gate_name,
       status := if is_success then .success else .failed,
       output := output, error := "", metadata_command := some cfg.command }, rc.2)
  | .error (.toolExecutionError msg) =>
    ({ tool_name := gate_name,
       status := if strContains msg.toLower "timed out" then .timeout else .failed,
       output := "", error := msg, metadata_command := none }, rc.2)
  | .error (.valueError msg) =>
    ({ tool_name := gate_name, status := .failed, output := "",
       error := "Unexpected error: " ++ msg, metadata_command := none }, rc.2)
  | .error (.toolNotFound msg) =>
    ({ tool_name := gate_name, status := .failed, output := "",
       error := "Unexpected error: " ++ msg, metadata_command := none }, rc.2)

/-- QualityGateManager.run_single_gate from ab_reviewer/core/quality_gate.py.
Availability check first: on an unavailable tool, either attempt the
install (auto_install on) and finalize SKIPPED when it fails, or finalize
SKIPPED immediately (auto_install off).  Otherwise run the try block. -/
def run_single_gate (env : Env) (project_path : String) (gate_name : String)
    (cfg : QualityGateConfig) : Except Unit QualityGateResult × List (List String) :=
  let chk := check_tool_availability env cfg
  match chk.1 with
  | .error e => (.error e, chk.2)
  | .ok available =>
    if available then
      let ex := execute_gate env project_path gate_name cfg
      (.ok ex.1, chk.2 ++ ex.2)
    else if cfg.auto_install then
      let inst := install_tool env project_path cfg
      if inst.1 then
        let ex := execute_gate env project_path gate_name cfg
        (.ok ex.1, chk.2 ++ inst.2 ++ ex.2)
      else
        (.ok { tool_name := gate_name, status := .skipped, output := "",
               error := "Failed to install " ++ gate_name,
               metadata_command := none }, chk.2 ++ inst.2)
    else
      (.ok { tool_name := gate_name, status := .skipped, output := "",
             error := "Tool " ++ gate_name ++ " not available and auto_install disabled",
             metadata_command := none }, chk.2)

/-- Python dict lookup on an insertion-ordered association list. -/
def assoc_find {α : Type} (k : String) : List (String × α) → Option α
  | [] => none
  | (a, v) :: rest => if a = k then some v else assoc_find k rest

/-- The loop of QualityGateManager.run_all_gates: iterate the requested
names, skip names absent from the registry, run each present gate and
record its result; a propagating exception aborts the iteration. -/
def run_gates_loop (env : Env) (project_path : String)
    (gates : List (String × QualityGateConfig)) :
    List String → Except Unit (List (String × QualityGateResult))
  | [] => .ok []
  | n :: rest =>
    match assoc_find n gates with
    | none => run_gates_loop env project_path gates rest
    | some cfg =>
      match (run_single_gate env project_path n cfg).1 with
      | .error e => .error e
      | .ok r =>
        match run_gates_loop env project_path gates rest with
        | .error e => .error e
        | .ok rs => .ok ((n, r) :: rs)

/-- QualityGateManager.run_all_gates.  gates_to_run is
(gate_names or list(self.gates.keys())): an explicitly given non-empty
list is used as is, while None or an empty list falls back to every
registry key. -/
def run_all_gates (env : Env) (project_path : String)
    (gates : List (String × QualityGateConfig))
    (gate_names : Option (List String)) :
    Except Unit (List (String × QualityGateResult)) :=
  let gates_to_run :=
    match gate_names with
    | some (n :: rest) => n :: rest
    | _ => gates.map Prod.fst
  run_gates_loop env project_path gates gates_to_run

/-- Number of results carrying a given status (the per-status sums in
QualityGateManager.get_summary). -/
def countStatus (s : GateStatus) (results : List (String × QualityGateResult)) : Nat :=
  (results.filter (fun p => p.2.status == s)).length

/-- The summary dict built by QualityGateManager.get_summary. -/
structure RunSummary where
  total_gates : Nat
  successful : Nat
  failed : Nat
  skipped : Nat
  success_rate : ℚ
  can_proceed_to_ai : Bool
  results : List (String × String × String)

/-- QualityGateManager.get_summary from ab_reviewer/core/quality_gate.py.
success_rate is (successful / total * 100) when total is positive, else 0;
can_proceed_to_ai is (successful > 0).  The nested results view keeps
name, status value and error (durations are not modelled). -/
def get_summary (results : List (String × QualityGateResult)) : RunSummary :=
  { total_gates := results.length,
    successful := countStatus .success results,
    failed := countStatus .failed results,
    skipped := countStatus .skipped results,
    success_rate :=
      if 0 < results.length then
        (countStatus .success results : ℚ) / (results.length : ℚ) * 100
      else 0,
    can_proceed_to_ai := decide (0 < countStatus .success results),
    results := results.map fun p => (p.1, statusValue p.2.status, p.2.error) }

/-- EnhancedToolRunner.can_proceed_to_ai_review (enhanced path): delegate
to the quality gate manager summary. -/
def can_proceed_to_ai_review (results : List (String × QualityGateResult)) : Bool :=
  (get_summary results).can_proceed_to_ai

/-- One tools entry of the configuration document: the enabled flag and the
optional custom args list (ab_reviewer/core/config_loader.py). -/
structure ToolConfig where
  enabled : Option Bool
  args : Option (List String)

/-- The formatter success criteria lambda from
ConfigLoader.get_quality_gate_configs. -/
def formatter_success_criteria (output : String) : Except Unit Bool :=
  .ok (!strContains output.toLower "would reformat"
    && !strContains output.toLower "reformatted"
    && (strContains output.toLower "left unchanged"
        || strContains output.toLower "nothing to do"))

/-- The always-pass success criteria lambda used by the linter, security
and tests defaults. -/
def always_true_criteria (_output : String) : Except Unit Bool :=
  .ok true

/-- Built-in formatter default of ConfigLoader.get_quality_gate_configs. -/
def formatterGate : QualityGateConfig :=
  { name := "formatter", command := ["black", "--check", "--diff", "."],
    timeout := 60, required := false, auto_install := true,
    install_command := some ["pip", "install", "black"],
    check_available := true,
    success_criteria := some formatter_success_criteria }

/-- Built-in linter default of ConfigLoader.get_quality_gate_configs. -/
def linterGate : QualityGateConfig :=
  { name := "linter", command := ["pylint", "--output-format=text", "--score=no", "."],
    timeout := 120, required := false, auto_install := true,
    install_command := some ["pip", "install", "pylint"],
    check_available := true,
    success_criteria := some always_true_criteria }

/-- Built-in security default of ConfigLoader.get_quality_gate_configs. -/
def securityGate : QualityGateConfig :=
  { name := "security", command := ["bandit", "-r", ".", "-f", "text"],
    timeout := 90, required := false, auto_install := true,
    install_command := some ["pip", "install", "bandit"],
    check_available := true,
    success_criteria := some always_true_criteria }

/-- Built-in tests default of ConfigLoader.get_quality_gate_configs. -/
def testsGate : QualityGateConfig :=
  { name := "tests", command := ["pytest", "--tb=short", "-v", "--maxfail=5"],
    timeout := 180, required := false, auto_install := true,
    install_command := some ["pip", "install", "pytest", "pytest-cov"],
    check_available := true,
    success_criteria := some always_true_criteria }

/-- The default_configs dict of ConfigLoader.get_quality_gate_configs, in
its insertion order. -/
def default_gate_configs : List (String × QualityGateConfig) :=
  [("formatter", formatterGate), ("linter", linterGate),
   ("security", securityGate), ("tests", testsGate)]

/-- ConfigLoader.get_quality_gate_configs: iterate the tools section in
insertion order; skip entries whose enabled flag (default true) is false;
skip names without a built-in default; when args is given, replace the
command with base executable, args, then the trailing path argument. -/
def get_quality_gate_configs (tools_config : List (String × ToolConfig)) :
    List (String × QualityGateConfig) :=
  tools_config.filterMap fun p =>
    if (p.2.enabled.getD true) = false then none
    else
      match assoc_find p.1 default_gate_configs with
      | none => none
      | some dc =>
        let command :=
          match p.2.args, dc.command with
          | some args, c0 :: _ => c0 :: (args ++ ["."])
          | some args, [] => args ++ ["."]
          | none, c => c
        some (p.1, { dc with name := p.1, command := command })

/-- An error caught inside one attempt of GeminiClient.run_review: either
an AIReviewError (for example, the one raised when the gemini command
reports failure) or any other exception, carrying its message. -/
inductive AttemptError
  | aiReviewError (msg : String)
  | otherError (msg : String)
  deriving DecidableEq

/-- Observable outcome of the body of one retry-loop attempt of
GeminiClient.run_review (temp-file creation, gemini invocation and
response parsing): the output string it would return, or the exception it
raises. -/
inductive AttemptOutcome
  | ok (output : String)
  | raises (e : AttemptError)
  deriving DecidableEq

/-- An AIReviewError leaving GeminiClient.run_review: either a caught
attempt error re-raised as is (raise last_error, setting no cause), or a
newly constructed AIReviewError with an explicit cause
(raise AIReviewError(...) from last_error). -/
inductive RaisedError
  | reraised (e : AttemptError)
  | fresh (msg : String) (cause : Option AttemptError)
  deriving DecidableEq

/-- The dunder cause of the exception leaving run_review: only the
raise-from form sets one. -/
def raisedCause : RaisedError → Option AttemptError
  | .reraised _ => none
  | .fresh _ c => c

/-- The raised error of a run_review result, when it raised. -/
def raisedOf : Except RaisedError (Bool × String) → Option RaisedError
  | .error r => some r
  | .ok _ => none

/-- The code after the retry loop of GeminiClient.run_review: an
AIReviewError last_error is re-raised as is; anything else is wrapped in
a fresh AIReviewError with the original as the cause (str(None) prints
None when the loop never ran). -/
def finalRaise (max_retries : Nat) : Option AttemptError → RaisedError
  | some (.aiReviewError m) => .reraised (.aiReviewError m)
  | some (.otherError m) =>
    .fresh ("Failed to run AI review after " ++ toString max_retries
      ++ " attempts: " ++ m) (some (.otherError m))
  | none =>
    .fresh ("Failed to run AI review after " ++ toString max_retries
      ++ " attempts: None") none

/-- The retry loop of GeminiClient.run_review, iterating over
range(max_retries).  A successful attempt returns immediately.  A failed
attempt records last_error; before every attempt except the last, the
client sleeps retry_delay seconds (recorded in the sleeps list) and then
doubles self.retry_delay.  The delay argument and result thread the
mutable self.retry_delay field. -/
def run_review_loop (attempts : Nat → AttemptOutcome) (max_retries : Nat) :
    List Nat → ℚ → Option AttemptError → List ℚ →
    Except RaisedError (Bool × String) × ℚ × List ℚ
  | [], retry_delay, last_error, sleeps =>
    (.error (finalRaise max_retries last_error), retry_delay, sleeps)
  | attempt :: rest, retry_delay, _last_error, sleeps =>
    match attempts attempt with
    | .ok output => (.ok (true, output), retry_delay, sleeps)
    | .raises e =>
      if attempt < max_retries - 1 then
        run_review_loop attempts max_retries rest (retry_delay * 2) (some e)
          (sleeps ++ [retry_delay])
      else
        (.error (finalRaise max_retries (some e)), retry_delay, sleeps)

/-- GeminiClient.run_review from ab_reviewer/ai/gemini_client.py.  The
dry-run short circuit, the availability check and the configuration
ai.enabled gate (default true) precede the retry loop.  attempts is the
oracle for the body of each attempt; max_retries and retry_delay thread
the per-instance fields (initialized to 3 and 1.0 in the constructor).
The result is the returned pair or raised error, the final value of
self.retry_delay, and the list of backoff sleeps performed. -/
def run_review (dry_run gemini_available : Bool) (ai_enabled : Option Bool)
    (attempts : Nat → AttemptOutcome) (max_retries : Nat) (retry_delay : ℚ) :
    Except RaisedError (Bool × String) × ℚ × List ℚ :=
  if dry_run then
    (.ok (true, "AI review skipped (dry run mode)"), retry_delay, [])
  else if !gemini_available then
    (.error (.fresh "Gemini CLI not found. Please install it first." none),
     retry_delay, [])
  else if ai_enabled.getD true = false then
    (.ok (true, "AI review disabled in configuration"), retry_delay, [])
  else
    run_review_loop attempts max_retries (List.range max_retries) retry_delay none []

/-- One legacy-format tool result consumed by
GeminiClient._prepare_context: a success flag and an output string. -/
structure ToolResult where
  success : Bool
  output : String

/-- The per-gate block appended by the quality-gate loop of
GeminiClient._prepare_context: the upper-cased name with PASSED or
FAILED, then, when the output is non-empty, an Output line holding the
output truncated to its first 500 characters with a trailing ... marker,
then a blank line. -/
def gateSection (tool_name : String) (result : ToolResult) : List String :=
  ([tool_name.toUpper ++ ": " ++ (if result.success then "PASSED" else "FAILED")]
    ++ (if result.output ≠ "" then
          ["Output: "
            ++ (if result.output.length > 500 then result.output.take 500 ++ "..."
                else result.output)]
        else [])) ++ [""]

/-- GeminiClient._prepare_context: header, per-gate blocks, optional
truncated git diff (failures fetching it are swallowed), optional
truncated tests output, and the fixed review instructions, joined with
newlines. -/
def prepare_context (project_path : String)
    (tool_results : List (String × ToolResult))
    (include_git_diff include_test_results : Bool)
    (git_diff : Except Unit String) : String :=
  let header := ["# Project Context", "Project Path: " ++ project_path, ""]
  let gates := ["# Quality Gate Results"]
    ++ (tool_results.map fun p => gateSection p.1 p.2).flatten
  let diffSection :=
    if include_git_diff then
      match git_diff with
      | .ok d =>
        if d ≠ "" then
          ["# Recent Changes (Git Diff)",
           if d.length > 2000 then d.take 2000 ++ "\n... (truncated)" else d,
           ""]
        else []
      | .error _ => []
    else []
  let testSection :=
    if include_test_results then
      let test_output := ((assoc_find "tests" tool_results).map ToolResult.output).getD ""
      if test_output ≠ "" then
        ["# Test Results",
         if test_output.length > 1000 then test_output.take 1000 ++ "..." else test_output,
         ""]
      else []
    else []
  let instructions :=
    ["# Review Instructions",
     "Please provide a focused code review covering:",
     "- Architecture and design patterns",
     "- Code readability and maintainability",
     "- Potential edge cases or bugs",
     "- Performance considerations",
     "- Security implications",
     "",
     "Focus on high-value feedback since basic quality issues",
     "have already been caught by the automated tools."]
  String.intercalate "\n" (header ++ gates ++ diffSection ++ testSection ++ instructions)

/-! Helper lemmas. -/

/-- A successful dict lookup means the key is among the keys. -/
lemma assoc_find_mem_keys {α : Type} (k : String) (l : List (String × α)) (v : α)
    (h : assoc_find k l = some v) : k ∈ l.map Prod.fst := by
  induction l with
  | nil => simp [assoc_find] at h
  | cons p rest ih =>
    obtain ⟨a, b⟩ := p
    by_cases ha : a = k
    · subst ha; simp
    · simp only [assoc_find, if_neg ha] at h
      simpa using Or.inr (ih h)

/-- With duplicate-free keys, a key determines its value. -/
lemma nodup_keys_unique {α : Type} (l : List (String × α)) (k : String) (a b : α)
    (hnd : (l.map Prod.fst).Nodup) (ha : (k, a) ∈ l) (hb : (k, b) ∈ l) : a = b := by
  induction l with
  | nil => simp at ha
  | cons p rest ih =>
    obtain ⟨x, y⟩ := p
    simp only [List.map_cons, List.nodup_cons] at hnd
    rcases List.mem_cons.mp ha with h1 | h1 <;> rcases List.mem_cons.mp hb with h2 | h2
    · rw [Prod.mk.injEq] at h1 h2
      rw [h1.2, h2.2]
    · exfalso
      rw [Prod.mk.injEq] at h1
      exact hnd.1 (h1.1 ▸ (List.mem_map_of_mem Prod.fst h2))
    · exfalso
      rw [Prod.mk.injEq] at h2
      exact hnd.1 (h2.1 ▸ (List.mem_map_of_mem Prod.fst h1))
    · exact ih hnd.2 h1 h2

/-- Every registry entry stems from a tools entry whose enabled flag
(defaulting to true) is not false. -/
lemma mem_get_configs (tools_config : List (String × ToolConfig))
    (name : String) (cfg : QualityGateConfig)
    (h : (name, cfg) ∈ get_quality_gate_configs tools_config) :
    ∃ t : ToolConfig, (name, t) ∈ tools_config ∧ (t.enabled.getD true) ≠ false := by
  unfold get_quality_gate_configs at h
  rw [List.mem_filterMap] at h
  obtain ⟨⟨n, t⟩, hmem, hf⟩ := h
  by_cases he : (t.enabled.getD true) = false
  · rw [if_pos he] at hf
    cases hf
  · rw [if_neg he] at hf
    rcases hfind : assoc_find n default_gate_configs with _ | dc <;> rw [hfind] at hf
    · cases hf
    · injection hf with hf2
      have hn : n = name := congrArg Prod.fst hf2
      exact ⟨t, hn ▸ hmem, he⟩

/-- The result set of the run-all loop only contains registry keys. -/
lemma results_keys_subset (env : Env) (pp : String)
    (gates : List (String × QualityGateConfig)) :
    ∀ (l : List String) (results : List (String × QualityGateResult)),
      run_gates_loop env pp gates l = .ok results →
      ∀ n, n ∈ results.map Prod.fst → n ∈ gates.map Prod.fst := by
  intro l
  induction l with
  | nil =>
    intro results h n hn
    simp only [run_gates_loop] at h
    cases h
    simp at hn
  | cons m rest ih =>
    intro results h n hn
    simp only [run_gates_loop] at h
    split at h
    · exact ih results h n hn
    · rename_i cfg hfind
      split at h
      · cases h
      · rename_i r hr
        split at h
        · cases h
        · rename_i rs hl
          cases h
          rw [List.map_cons] at hn
          rcases List.mem_cons.mp hn with h1 | h1
          · exact h1 ▸ assoc_find_mem_keys m gates cfg hfind
          · exact ih rs hl n h1

/-- install_tool never spawns a process: the run_command call inside it
passes an unexpected tool_name keyword and raises TypeError first. -/
lemma install_tool_no_spawn (env : Env) (pp : String) (cfg : QualityGateConfig) :
    (install_tool env pp cfg).2 = [] := by
  unfold install_tool
  cases cfg.auto_install <;> cases cfg.install_command <;> simp

/-- install_tool always reports failure, for the same reason. -/
lemma install_tool_always_false (env : Env) (pp : String) (cfg : QualityGateConfig) :
    (install_tool env pp cfg).1 = false := by
  unfold install_tool
  cases cfg.auto_install <;> cases cfg.install_command <;> simp

/-! Claim theorems. -/

/-- C1: the claim (with the spec) says that a gate whose command execution
raises a timeout-kind error is finalized TimedOut, never Failed.  The code
contradicts it: run_command raises ToolExecutionError with a message
reading Command timeout after Ns, while run_single_gate looks for the
substring timed out in the lowercased message, which never matches, so the
TIMEOUT branch is unreachable for executor timeouts.  Here a formatter
gate whose black invocation overruns its 60s budget is finalized FAILED. -/
theorem timeout_finalized_as_failed :
    (run_single_gate
      { which := fun t => if t = "black" then some "/usr/bin/black" else none,
        exec := fun cmd _ _ =>
          if cmd = ["black", "--version"] then .completed 0 "black, 24.4.2" ""
          else .timedOut }
      "/proj" "formatter" formatterGate).1 =
      .ok { tool_name := "formatter", status := .failed, output := "",
            error := "Command timeout after 60s: black --check --diff .",
            metadata_command := none } := by
  with_unfolding_all rfl

/-- C2 counterexample: the claim says success_rate equals successful/total.
On a result set with one successful gate the code computes 100, while
successful/total is 1. -/
theorem success_rate_is_not_the_plain_ratio :
    (get_summary [("formatter",
        { tool_name := "formatter", status := .success, output := "", error := "",
          metadata_command := none })]).success_rate = 100
  ∧ (get_summary [("formatter",
        { tool_name := "formatter", status := .success, output := "", error := "",
          metadata_command := none })]).successful = 1
  ∧ (get_summary [("formatter",
        { tool_name := "formatter", status := .success, output := "", error := "",
          metadata_command := none })]).total_gates = 1
  ∧ (100 : ℚ) ≠ (1 : ℚ) / (1 : ℚ) := by
  refine ⟨?_, rfl, rfl, by norm_num⟩
  show (if 0 < (1 : Nat) then ((1 : Nat) : ℚ) / ((1 : Nat) : ℚ) * 100 else 0) = 100
  norm_num

/-- C2 amended: success_rate equals successful/total expressed as a
percentage (successful divided by total, times 100), and 0 when the
result set is empty. -/
theorem success_rate_is_percentage (results : List (String × QualityGateResult)) :
    (get_summary results).success_rate
      = ((get_summary results).successful : ℚ) * 100
        / ((get_summary results).total_gates : ℚ)
  ∧ (results = [] → (get_summary results).success_rate = 0) := by
  constructor
  · simp only [get_summary]
    by_cases h : 0 < results.length
    · rw [if_pos h, div_mul_eq_mul_div]
    · rw [if_neg h]
      have h0 : results = [] := List.length_eq_zero.mp (by omega)
      subst h0
      simp [countStatus]
  · intro h
    subst h
    rfl

/-- C2 witness: the amended statement evaluated on the empty result set. -/
theorem success_rate_is_percentage_witness :
    (get_summary ([] : List (String × QualityGateResult))).success_rate = 0 :=
  (success_rate_is_percentage []).2 rfl

/-- C3: in the (progressive-mode) summary, can_proceed_to_ai is true
exactly when the number of Success results is positive; so with K of N
gates succeeding it is true for K positive and false for K zero. -/
theorem can_proceed_iff_any_success (results : List (String × QualityGateResult)) :
    (get_summary results).can_proceed_to_ai = true
      ↔ 0 < countStatus .success results := by
  simp [get_summary]

/-- C6: the executor rejects an empty command vector as a precondition
violation (ValueError), and for a non-empty vector whose first token does
not resolve on the search path it raises ToolNotFound (so never
ToolExecutionError), without spawning anything. -/
theorem missing_tool_raises_tool_not_found (env : Env) (cmd : List String)
    (cwd : Option String) (timeout : Nat) (capture_output : Bool) :
    (cmd = [] → (run_command env cmd cwd timeout capture_output).1 =
        .error (.valueError "cmd must be a non-empty list"))
  ∧ (∀ c0 rest, cmd = c0 :: rest → env.which c0 = none →
      run_command env cmd cwd timeout capture_output =
        (.error (.toolNotFound ("Tool not found: " ++ c0)), [])) := by
  constructor
  · rintro rfl
    rfl
  · rintro c0 rest rfl hw
    simp [run_command, hw]

/-- An environment on which no tool resolves. -/
def absentEnv : Env :=
  { which := fun _ => none, exec := fun _ _ _ => .otherError }

/-- C6 witness: the theorem applied to a concrete unresolvable command. -/
theorem missing_tool_raises_tool_not_found_witness :
    run_command absentEnv ["nosuchtool", "--check"] none 30 true =
      (.error (.toolNotFound "Tool not found: nosuchtool"), []) :=
  (missing_tool_raises_tool_not_found absentEnv ["nosuchtool", "--check"] none 30 true).2
    "nosuchtool" ["--check"] rfl rfl

/-- C5: for a gate whose tool does not resolve on the search path (and
whose availability check is enabled, as it is for every registry gate):
with auto_install on and a failing install attempt the gate is finalized
Skipped with an explanatory error, and with auto_install off it is
finalized Skipped immediately; in both cases no process at all is spawned,
in particular the gate command is never executed. -/
theorem unavailable_tool_gate_skipped (env : Env) (pp gate_name tool : String)
    (rest : List String) (cfg : QualityGateConfig)
    (hchk : cfg.check_available = true)
    (hcmd : cfg.command = tool :: rest)
    (habs : env.which tool = none) :
    (cfg.auto_install = true → (install_tool env pp cfg).1 = false →
      run_single_gate env pp gate_name cfg =
        (.ok { tool_name := gate_name, status := .skipped, output := "",
               error := "Failed to install " ++ gate_name, metadata_command := none },
         []))
  ∧ (cfg.auto_install = false →
      run_single_gate env pp gate_name cfg =
        (.ok { tool_name := gate_name, status := .skipped, output := "",
               error := "Tool " ++ gate_name ++ " not available and auto_install disabled",
               metadata_command := none },
         [])) := by
  have hav : check_tool_availability env cfg = (.ok false, []) := by
    simp [check_tool_availability, hchk, hcmd, check_tool_available, habs]
  constructor
  · intro hai _
    simp [run_single_gate, hav, hai, install_tool_always_false, install_tool_no_spawn]
  · intro hai
    simp [run_single_gate, hav, hai]

/-- C5 witness: the default formatter gate on an environment where nothing
resolves: the result is Skipped and no command is spawned. -/
theorem unavailable_tool_gate_skipped_witness :
    run_single_gate absentEnv "/proj" "formatter" formatterGate =
      (.ok { tool_name := "formatter", status := .skipped, output := "",
             error := "Failed to install formatter", metadata_command := none },
       []) :=
  (unavailable_tool_gate_skipped absentEnv "/proj" "formatter" "black"
    ["--check", "--diff", "."] formatterGate rfl rfl rfl).1 rfl rfl

/-- C7: for a gate with a defined success criteria callable, when applying
it to the combined output raises, the exception is swallowed and the
Success/Failed decision falls back to raw exit-code success; the gate
still produces an ordinary result (the run is not aborted). -/
theorem criteria_exception_falls_back_to_exit_code (env : Env)
    (pp gate_name tool path vout verr : String) (rest : List String)
    (cfg : QualityGateConfig) (crit : String → Except Unit Bool)
    (rc : Int) (stdout stderr : String)
    (hchk : cfg.check_available = true)
    (hcmd : cfg.command = tool :: rest)
    (hw : env.which tool = some path)
    (hver : env.exec [tool, "--version"] none 5 = .completed 0 vout verr)
    (hcrit : cfg.success_criteria = some crit)
    (hexec : env.exec (tool :: rest) (some pp) cfg.timeout = .completed rc stdout stderr)
    (hraise : crit (stdout ++ stderr) = .error ()) :
    (run_single_gate env pp gate_name cfg).1 =
      .ok { tool_name := gate_name,
            status := if rc == 0 then .success else .failed,
            output := stdout ++ stderr, error := "",
            metadata_command := some cfg.command } := by
  have hav : check_tool_availability env cfg = (.ok true, [[tool, "--version"]]) := by
    simp [check_tool_availability, hchk, hcmd, check_tool_available, hw, hver]
  have hrc : run_command env cfg.command (some pp) cfg.timeout true =
      (.ok (rc == 0, stdout ++ stderr), [cfg.command]) := by
    simp [hcmd, run_command, hw, hexec]
  simp [run_single_gate, hav, execute_gate, hrc, hcrit, hraise]

/-- A criteria callable that always raises. -/
def throwingCriteria (_output : String) : Except Unit Bool := .error ()

/-- A linter-like gate whose criteria callable raises. -/
def throwingCriteriaGate : QualityGateConfig :=
  { linterGate with command := ["pylint"], success_criteria := some throwingCriteria }

/-- An environment where pylint resolves, its version check passes, and
the gate command itself exits non-zero. -/
def flakyCriteriaEnv : Env :=
  { which := fun t => if t = "pylint" then some "/usr/bin/pylint" else none,
    exec := fun cmd _ _ =>
      if cmd = ["pylint", "--version"] then .completed 0 "pylint 3.0.0" ""
      else .completed 1 "lint problems found" "" }

/-- C7 witness: the raising criteria gate falls back to the non-zero exit
code and is finalized Failed. -/
theorem criteria_exception_falls_back_witness :
    (run_single_gate flakyCriteriaEnv "/proj" "linter" throwingCriteriaGate).1 =
      .ok { tool_name := "linter", status := .failed,
            output := "lint problems found", error := "",
            metadata_command := some ["pylint"] } := by
  have h := criteria_exception_falls_back_to_exit_code flakyCriteriaEnv "/proj" "linter"
    "pylint" "/usr/bin/pylint" "pylint 3.0.0" "" [] throwingCriteriaGate throwingCriteria
    1 "lint problems found" "" rfl rfl rfl rfl rfl rfl rfl
  exact h

/-- C9: in the per-gate section of the AI context, an output longer than
500 characters is included as exactly its first 500 characters followed by
the trailing ... marker, and an output of at most 500 characters is
included unmodified. -/
theorem gate_output_truncated_to_500 (tool_name : String) (result : ToolResult) :
    (500 < result.output.length →
      gateSection tool_name result =
        [tool_name.toUpper ++ ": " ++ (if result.success then "PASSED" else "FAILED"),
         "Output: " ++ (result.output.take 500 ++ "..."), ""]
      ∧ (result.output.take 500).length = 500)
  ∧ (result.output.length ≤ 500 ∧ result.output ≠ "" →
      gateSection tool_name result =
        [tool_name.toUpper ++ ": " ++ (if result.success then "PASSED" else "FAILED"),
         "Output: " ++ result.output, ""]) := by
  constructor
  · intro h
    have hne : result.output ≠ "" := by
      intro he
      rw [he] at h
      simp [String.length] at h
    constructor
    · simp [gateSection, hne, h]
    · rw [String.take_eq]
      show (result.output.data.take 500).length = 500
      rw [List.length_take]
      have h2 : 500 < result.output.data.length := h
      omega
  · rintro ⟨hle, hne⟩
    have hnotgt : ¬ (result.output.length > 500) := by omega
    simp [gateSection, hne, hnotgt]

/-- An output string of more than 500 characters. -/
def longOutput : String := String.mk (List.replicate 501 'x')

set_option maxRecDepth 4000 in
/-- C9 witness: the 501-character output is cut to its first 500
characters plus the marker. -/
theorem gate_output_truncated_to_500_witness :
    gateSection "linter" { success := false, output := longOutput } =
      ["linter".toUpper ++ ": " ++ "FAILED",
       "Output: " ++ (longOutput.take 500 ++ "..."), ""]
    ∧ (longOutput.take 500).length = 500 := by
  have h : 500 < longOutput.length := by
    have h1 : longOutput.length = 501 := rfl
    omega
  simpa using
    (gate_output_truncated_to_500 "linter" { success := false, output := longOutput }).1 h

/-- C8: a tools entry with enabled false is omitted from the registry
(given the duplicate-free keys a Python dict guarantees); every name in a
run result set is a registry key, so such a gate never appears in any
result set; and the concrete two-entry configuration with the formatter
enabled and the linter disabled yields a registry holding exactly the one
gate formatter. -/
theorem disabled_gate_never_in_results :
    (∀ (tools_config : List (String × ToolConfig)) (name : String) (t : ToolConfig),
        (tools_config.map Prod.fst).Nodup → (name, t) ∈ tools_config →
        t.enabled = some false →
        name ∉ (get_quality_gate_configs tools_config).map Prod.fst)
  ∧ (∀ (env : Env) (pp : String) (gates : List (String × QualityGateConfig))
        (gate_names : Option (List String))
        (results : List (String × QualityGateResult)),
        run_all_gates env pp gates gate_names = .ok results →
        ∀ n, n ∈ results.map Prod.fst → n ∈ gates.map Prod.fst)
  ∧ (get_quality_gate_configs
        [("formatter", { enabled := some true, args := none }),
         ("linter", { enabled := some false, args := none })]).map Prod.fst
      = ["formatter"] := by
  refine ⟨?_, ?_, rfl⟩
  · intro tools_config name t hnd hmem hdis hin
    obtain ⟨⟨n2, cfg⟩, hmem2, heq⟩ := List.mem_map.mp hin
    obtain ⟨t2, ht2mem, ht2en⟩ :=
      mem_get_configs tools_config name cfg (by rwa [show n2 = name from heq] at hmem2)
    have : t = t2 := nodup_keys_unique tools_config name t t2 hnd hmem ht2mem
    rw [← this, hdis] at ht2en
    exact ht2en rfl
  · intro env pp gates gate_names results h n hn
    unfold run_all_gates at h
    exact results_keys_subset env pp gates _ results h n hn

/-- C8 witness: in the concrete two-entry configuration, the disabled
linter is absent from the registry keys. -/
theorem disabled_gate_never_in_results_witness :
    "linter" ∉ (get_quality_gate_configs
        [("formatter", { enabled := some true, args := none }),
         ("linter", { enabled := some false, args := none })]).map Prod.fst :=
  disabled_gate_never_in_results.1
    [("formatter", { enabled := some true, args := none }),
     ("linter", { enabled := some false, args := none })]
    "linter" { enabled := some false, args := none }
    (by simp) (by simp) rfl

/-- run_review only consults the attempts whose index the loop visits. -/
lemma run_review_loop_congr (att att2 : Nat → AttemptOutcome) (m : Nat) :
    ∀ (l : List Nat) (d : ℚ) (le : Option AttemptError) (s : List ℚ),
      (∀ i ∈ l, att i = att2 i) →
      run_review_loop att m l d le s = run_review_loop att2 m l d le s := by
  intro l
  induction l with
  | nil => intro d le s _; rfl
  | cons a rest ih =>
    intro d le s h
    have ha := h a (List.mem_cons_self a rest)
    cases h2 : att2 a with
    | ok out => simp only [run_review_loop, ha, h2]
    | raises e =>
      simp only [run_review_loop, ha, h2]
      by_cases hlt : a < m - 1
      · rw [if_pos hlt, if_pos hlt]
        exact ih (d * 2) (some e) (s ++ [d]) fun i hi => h i (List.mem_cons_of_mem a hi)
      · rw [if_neg hlt, if_neg hlt]

/-- C4 amended: run_review makes at most 3 attempts (its result depends
only on the first three attempt outcomes); when an attempt succeeds it
returns success with that very output; when all 3 attempts fail it raises
an AIReviewError carrying the third failure: a third failure that is
itself an AIReviewError is re-raised directly (so without a cause), while
any other third failure is wrapped in a fresh AIReviewError that preserves
it as the cause. -/
theorem run_review_retry_contract :
    (∀ (dry_run gemini_available : Bool) (ai_enabled : Option Bool)
        (att att2 : Nat → AttemptOutcome) (d : ℚ),
        (∀ i, i < 3 → att i = att2 i) →
        run_review dry_run gemini_available ai_enabled att 3 d =
          run_review dry_run gemini_available ai_enabled att2 3 d)
  ∧ (∀ (att : Nat → AttemptOutcome) (d : ℚ) (k : Nat) (out : String),
        k < 3 → (∀ j, j < k → ∃ e, att j = .raises e) → att k = .ok out →
        (run_review false true (some true) att 3 d).1 = .ok (true, out))
  ∧ (∀ (att : Nat → AttemptOutcome) (d : ℚ) (e0 e1 e2 : AttemptError),
        att 0 = .raises e0 → att 1 = .raises e1 → att 2 = .raises e2 →
        (run_review false true (some true) att 3 d).1 =
          .error (match e2 with
            | .aiReviewError m => .reraised (.aiReviewError m)
            | .otherError m =>
              .fresh ("Failed to run AI review after 3 attempts: " ++ m)
                (some (.otherError m)))) := by
  refine ⟨?_, ?_, ?_⟩
  · intro dry_run gemini_available ai_enabled att att2 d h
    unfold run_review
    rw [run_review_loop_congr att att2 3 (List.range 3) d none []
      fun i hi => h i (List.mem_range.mp hi)]
  · intro att d k out hk hfail hok
    show (run_review_loop att 3 [0, 1, 2] d none []).1 = .ok (true, out)
    match k with
    | 0 => simp [run_review_loop, hok]
    | 1 =>
      obtain ⟨e0, he0⟩ := hfail 0 (by omega)
      simp [run_review_loop, he0, hok]
    | 2 =>
      obtain ⟨e0, he0⟩ := hfail 0 (by omega)
      obtain ⟨e1, he1⟩ := hfail 1 (by omega)
      simp [run_review_loop, he0, he1, hok]
  · intro att d e0 e1 e2 h0 h1 h2
    show (run_review_loop att 3 [0, 1, 2] d none []).1 = _
    have hfin : (run_review_loop att 3 [0, 1, 2] d none []).1 =
        .error (finalRaise 3 (some e2)) := by
      simp [run_review_loop, h0, h1, h2]
    rw [hfin]
    cases e2 <;> rfl

/-- An attempts oracle on which every attempt raises the AIReviewError the
body raises when the gemini command reports failure. -/
def allAIReviewFail : Nat → AttemptOutcome :=
  fun _ => .raises (.aiReviewError "Gemini CLI failed: bad output")

/-- C4 counterexample: the claim says three consecutive failures raise an
AIReviewError wrapping the third error and preserving it as the cause.
When the third failure already is an AIReviewError, the code re-raises it
directly: the raised error is the reraised form, whose cause is none, not
the claimed wrapper. -/
theorem run_review_reraises_aireviewerror_without_cause :
    (run_review false true (some true) allAIReviewFail 3 1).1 =
      .error (.reraised (.aiReviewError "Gemini CLI failed: bad output"))
    ∧ ((raisedOf (run_review false true (some true) allAIReviewFail 3 1).1).map raisedCause)
      = some none :=
  ⟨rfl, rfl⟩

/-- An attempts oracle failing twice with transient errors, then
succeeding. -/
def failTwiceThenOk : Nat → AttemptOutcome := fun n =>
  if n = 0 then .raises (.otherError "transient one")
  else if n = 1 then .raises (.otherError "transient two")
  else .ok "third attempt review output"

/-- C4 witness: two failures then a success return the third output; three
non-AIReviewError failures raise the wrapper with the third error as
cause. -/
theorem run_review_retry_contract_witness :
    (run_review false true (some true) failTwiceThenOk 3 1).1 =
      .ok (true, "third attempt review output")
    ∧ (run_review false true (some true)
        (fun _ => .raises (.otherError "io failure")) 3 1).1 =
      .error (.fresh "Failed to run AI review after 3 attempts: io failure"
        (some (.otherError "io failure"))) := by
  constructor
  · exact run_review_retry_contract.2.1 failTwiceThenOk 1 2 "third attempt review output"
      (by omega)
      (fun j hj => by
        interval_cases j
        · exact ⟨.otherError "transient one", rfl⟩
        · exact ⟨.otherError "transient two", rfl⟩)
      rfl
  · exact run_review_retry_contract.2.2 (fun _ => .raises (.otherError "io failure")) 1
      (.otherError "io failure") (.otherError "io failure") (.otherError "io failure")
      rfl rfl rfl

/-- The sleeps accumulator is a prefix of the final sleeps list. -/
lemma run_review_loop_sleeps_prefix (att : Nat → AttemptOutcome) (m : Nat) :
    ∀ (l : List Nat) (d : ℚ) (le : Option AttemptError) (s : List ℚ),
      ∃ extra, (run_review_loop att m l d le s).2.2 = s ++ extra := by
  intro l
  induction l with
  | nil => intro d le s; exact ⟨[], by simp [run_review_loop]⟩
  | cons a rest ih =>
    intro d le s
    cases h : att a with
    | ok out => exact ⟨[], by simp [run_review_loop, h]⟩
    | raises e =>
      by_cases hlt : a < m - 1
      · obtain ⟨extra, hex⟩ := ih (d * 2) (some e) (s ++ [d])
        refine ⟨[d] ++ extra, ?_⟩
        simp only [run_review_loop, h, if_pos hlt, hex, List.append_assoc]
      · exact ⟨[], by simp [run_review_loop, h, hlt]⟩

/-- C10: self.retry_delay is per-instance state that every backoff sleep
doubles and nothing resets: a run_review call started at delay d that
performed k backoff sleeps leaves the client at delay d * 2 ^ k, and a
later run_review call on the same client whose first attempt fails sleeps
d * 2 ^ k before its first retry, not the constructor value 1.0. -/
theorem retry_delay_never_reset (att att2 : Nat → AttemptOutcome) (d : ℚ)
    (e : AttemptError) (h2 : att2 0 = .raises e) :
    (run_review false true (some true) att 3 d).2.1
      = d * 2 ^ (run_review false true (some true) att 3 d).2.2.length
  ∧ (run_review false true (some true) att2 3
        ((run_review false true (some true) att 3 d).2.1)).2.2.head?
      = some ((run_review false true (some true) att 3 d).2.1) := by
  constructor
  · show (run_review_loop att 3 [0, 1, 2] d none []).2.1
      = d * 2 ^ (run_review_loop att 3 [0, 1, 2] d none []).2.2.length
    cases h0 : att 0 with
    | ok out => simp [run_review_loop, h0]
    | raises e0 =>
      cases h1 : att 1 with
      | ok out => simp [run_review_loop, h0, h1]; try ring
      | raises e1 =>
        cases h2a : att 2 with
        | ok out => simp [run_review_loop, h0, h1, h2a]; try ring
        | raises e2 => simp [run_review_loop, h0, h1, h2a]; try ring
  · show (run_review_loop att2 3 [0, 1, 2]
        ((run_review false true (some true) att 3 d).2.1) none []).2.2.head?
      = some ((run_review false true (some true) att 3 d).2.1)
    have hstep : run_review_loop att2 3 [0, 1, 2]
        ((run_review false true (some true) att 3 d).2.1) none [] =
      run_review_loop att2 3 [1, 2]
        ((run_review false true (some true) att 3 d).2.1 * 2) (some e)
        [(run_review false true (some true) att 3 d).2.1] := by
      simp [run_review_loop, h2]
    rw [hstep]
    obtain ⟨extra, hex⟩ := run_review_loop_sleeps_prefix att2 3 [1, 2]
      ((run_review false true (some true) att 3 d).2.1 * 2) (some e)
      [(run_review false true (some true) att 3 d).2.1]
    rw [hex]
    rfl

/-- An attempts oracle on which every attempt raises a transient error. -/
def alwaysOtherFail : Nat → AttemptOutcome := fun _ => .raises (.otherError "transient")

/-- C10 witness: a fully failing call from the constructor delay 1.0
performs two backoff sleeps and leaves the delay at 4; the next call on
the same client sleeps 4 before its first retry. -/
theorem retry_delay_never_reset_witness :
    (run_review false true (some true) alwaysOtherFail 3 1).2.1 = 4
  ∧ (run_review false true (some true) alwaysOtherFail 3 4).2.2.head? = some 4 := by
  have h := retry_delay_never_reset alwaysOtherFail alwaysOtherFail 1
    (.otherError "transient") rfl
  have hlen : (run_review false true (some true) alwaysOtherFail 3 1).2.2.length = 2 := rfl
  have hval : (run_review false true (some true) alwaysOtherFail 3 1).2.1 = 4 := by
    rw [h.1, hlen]
    norm_num
  refine ⟨hval, ?_⟩
  have h2 := h.2
  rw [hval] at h2
  exact h2

end ABReviewer
